import Mathlib

/-!
ultraleap_terminal: the connection manager, the poll loop and the latest-value cache.

A shallow embedding of `main.c`.  The tracking library (LeapC) is an external
collaborator: its entry points are the fields of `Provider`, a record of
functions over an arbitrary provider state `σ`.  The globals of `main.c` are the
fields of `Globals`; every C function becomes a function on `Globals`.

Two ghost fields are added to the globals: `calls`, the trace of calls made to
the provider, and `pollingThreads`, the number of poll-loop threads created.
-/

namespace UltraleapTerminal

/-! ## Types of the tracking library -/

/-- Result codes, one constructor for each code that `ResultString` names. -/
inductive eLeapRS
  | Success
  | UnknownError
  | InvalidArgument
  | InsufficientResources
  | InsufficientBuffer
  | Timeout
  | NotConnected
  | HandshakeIncomplete
  | BufferSizeOverflow
  | ProtocolError
  | InvalidClientID
  | UnexpectedClosed
  | UnknownImageFrameRequest
  | UnknownTrackingFrameID
  | RoutineIsNotSeer
  | TimestampTooEarly
  | ConcurrentPoll
  | NotAvailable
  | NotStreaming
  | CannotOpenDevice
  deriving DecidableEq

/-- Modelled from the spec: `LeapC.h` is not in the repository.  A tracking frame
is a snapshot with a sequence identifier and a variable-length set of hands.  The
members that `main.c` reads keep their names (`pHands` is the address of the
provider's array of hands); `rest` stands for the remaining members, which the
program only copies. -/
structure LEAP_TRACKING_EVENT where
  tracking_frame_id : Int
  nHands : Nat
  pHands : Nat
  rest : Nat
  deriving DecidableEq, Inhabited

/-- Modelled from the spec: `LeapC.h` is not in the repository.  A device
descriptor with its variable-length serial.  `size` is the first member (the one
`handleDeviceEvent` initialises with `sizeof`), `serial` is the content of the
buffer the `serial` pointer designates (its length is the allocated size, which
may differ from `serial_length`), `rest` stands for the remaining members. -/
structure LEAP_DEVICE_INFO where
  size : Nat
  serial_length : Nat
  serial : List Nat
  rest : Nat
  deriving DecidableEq, Inhabited

/-- Modelled from the spec: `LeapC.h` is not in the repository.  A device event
carries the raw device reference. -/
structure LEAP_DEVICE_EVENT where
  device : Nat
  deriving DecidableEq, Inhabited

/-- Modelled from the spec: `LeapC.h` is not in the repository.  A polled message
is a tagged union; the three tags `serviceMessageLoop` tests carry their payload,
every other tag is `Other`. -/
inductive LEAP_CONNECTION_MESSAGE
  | Tracking (tracking_event : LEAP_TRACKING_EVENT)
  | Device (device_event : LEAP_DEVICE_EVENT)
  | Connection
  | Other (type : Nat)
  deriving DecidableEq, Inhabited

/-- The tracking library and the allocator, as seen from `main.c`.  Handles are
numbers, `0` is `NULL`.

* `LeapCreateConnection` returns the result code and the value it leaves in
  `leapHandle` (which is `NULL` on entry);
* `LeapGetDeviceInfo` receives the descriptor struct the caller passes by
  address and returns the struct as the library leaves it;
* `heapByte` gives the indeterminate content of freshly allocated bytes;
* `sizeofDeviceInfo` is `sizeof(LEAP_DEVICE_INFO)`. -/
structure Provider (σ : Type) where
  LeapCreateConnection : σ → eLeapRS × Nat × σ
  LeapOpenConnection : Nat → σ → eLeapRS × σ
  LeapPollConnection : Nat → Nat → σ → eLeapRS × LEAP_CONNECTION_MESSAGE × σ
  LeapOpenDevice : Nat → σ → eLeapRS × Nat × σ
  LeapGetDeviceInfo : Nat → LEAP_DEVICE_INFO → σ → eLeapRS × LEAP_DEVICE_INFO × σ
  LeapCloseDevice : Nat → σ → σ
  heapByte : Nat → Nat
  sizeofDeviceInfo : Nat

/-- One call to the provider, with what it answered (ghost trace). -/
inductive Call
  | createConnection (result : eLeapRS) (handle : Nat)
  | openConnection (handle : Nat) (result : eLeapRS)
  | pollConnection (handle : Nat) (timeout : Nat) (result : eLeapRS)
      (msg : LEAP_CONNECTION_MESSAGE)
  | openDevice (device : Nat) (result : eLeapRS) (deviceHandle : Nat)
  | getDeviceInfo (deviceHandle : Nat) (arg : LEAP_DEVICE_INFO) (result : eLeapRS)
  | closeDevice (deviceHandle : Nat)
  deriving DecidableEq

/-! ## The globals of `main.c` -/

/-- The file-scope variables of `main.c` (`NULL` pointers are `none`, the `NULL`
handle is `0`), the provider state, and the two ghost fields. -/
structure Globals (σ : Type) where
  leapHandle : Nat
  lastDevice : Option LEAP_DEVICE_INFO
  _isRunning : Bool
  IsConnected : Bool
  lastFrame : Option LEAP_TRACKING_EVENT
  provider : σ
  calls : List Call
  pollingThreads : Nat
  deriving DecidableEq

/-- The state at program start: the initialisers of lines 19-23. -/
def Globals.init {σ : Type} (p : σ) : Globals σ :=
  { leapHandle := 0, lastDevice := none, _isRunning := false, IsConnected := false,
    lastFrame := none, provider := p, calls := [], pollingThreads := 0 }

/-! ## Connection manager -/

/-- The condition of line 66, `leapHandle || LeapCreateConnection(NULL, &leapHandle)
== eLeapRS_Success`: the provider is called only when there is no handle yet. -/
def haveConnection {σ : Type} (P : Provider σ) (g : Globals σ) : Bool × Globals σ :=
  if g.leapHandle ≠ 0 then (true, g)
  else
    let r := P.LeapCreateConnection g.provider
    (decide (r.1 = eLeapRS.Success),
      { g with leapHandle := r.2.1, provider := r.2.2,
               calls := g.calls ++ [Call.createConnection r.1 r.2.1] })

/-- `OpenConnection` (lines 62-81).  The C function returns `&leapHandle`, the
address of the global; the model returns the handle stored there on return.
The `pthread_create` of line 76 is counted in `pollingThreads`. -/
def OpenConnection {σ : Type} (P : Provider σ) (g : Globals σ) : Nat × Globals σ :=
  if g._isRunning then (g.leapHandle, g)
  else
    let c := haveConnection P g
    if c.1 then
      let g1 := c.2
      let r := P.LeapOpenConnection g1.leapHandle g1.provider
      let g2 := { g1 with provider := r.2,
                          calls := g1.calls ++ [Call.openConnection g1.leapHandle r.1] }
      if r.1 = eLeapRS.Success then
        let g3 := { g2 with _isRunning := true, pollingThreads := g2.pollingThreads + 1 }
        (g3.leapHandle, g3)
      else (g2.leapHandle, g2)
    else (c.2.leapHandle, c.2)

/-! ## Allocator -/

/-- `malloc(n)`: a fresh buffer of `n` bytes of indeterminate content.  Allocation
is assumed to succeed; `free` has no counterpart since no theorem below is about
heap accounting. -/
def malloc {σ : Type} (P : Provider σ) (n : Nat) : List Nat :=
  (List.range n).map P.heapByte

/-- `realloc(buf, n)`: the content is kept up to the smaller of the two sizes, the
bytes added are indeterminate. -/
def realloc {σ : Type} (P : Provider σ) (buf : List Nat) (n : Nat) : List Nat :=
  buf.take n ++ (malloc P n).drop buf.length

/-- The bytes `memcpy(dst, src, n)` stores in `dst`: the first `n` bytes of `src`.
Reading past the end of `src` is undefined in C; the model yields indeterminate
bytes there, and every theorem about copied content assumes `n ≤ src.length`. -/
def memcpy {σ : Type} (P : Provider σ) (src : List Nat) (n : Nat) : List Nat :=
  src.take n ++ (malloc P n).drop src.length

/-! ## Latest-value cache

`LockMutex`/`UnlockMutex` delimit each body below; in the sequential model each
body is a single state transformer. -/

/-- `setFrame` (lines 86-91): allocate the slot on first use, then copy the struct
into it (`*lastFrame = *frame`). -/
def setFrame {σ : Type} (frame : LEAP_TRACKING_EVENT) (g : Globals σ) : Globals σ :=
  let g1 := if g.lastFrame.isSome then g else { g with lastFrame := some default }
  { g1 with lastFrame := g1.lastFrame.map (fun _ => frame) }

/-- `GetFrame` (lines 93-99): the pointer `lastFrame`; `none` is `NULL`, `some f`
is a pointer to a slot that holds `f`. -/
def GetFrame {σ : Type} (g : Globals σ) : Option LEAP_TRACKING_EVENT :=
  g.lastFrame

/-- `GetDeviceProperties` (lines 101-107): the pointer `lastDevice`. -/
def GetDeviceProperties {σ : Type} (g : Globals σ) : Option LEAP_DEVICE_INFO :=
  g.lastDevice

/-- `setDevice` (lines 149-160): allocate the slot on first use, copy the struct,
then give the slot a serial buffer of its own, of `serial_length` bytes, filled
from the caller's buffer. -/
def setDevice {σ : Type} (P : Provider σ) (deviceProps : LEAP_DEVICE_INFO)
    (g : Globals σ) : Globals σ :=
  let g1 := if g.lastDevice.isSome then g else { g with lastDevice := some default }
  let g2 := { g1 with lastDevice := g1.lastDevice.map (fun _ => deviceProps) }
  { g2 with lastDevice := g2.lastDevice.map (fun d =>
      { d with serial := memcpy P deviceProps.serial deviceProps.serial_length }) }

/-! ## Device descriptor negotiator -/

/-- What a buffer of fixed size holds after `written` has been stored at its
start: the library writes through the pointer it is handed, the allocated size
does not change. -/
def overwrite (old written : List Nat) : List Nat :=
  (written ++ old.drop written.length).take old.length

/-- One `LeapGetDeviceInfo(deviceHandle, &deviceProperties)` call: the result
code and the struct as the library leaves it, recorded in the trace. -/
def callGetDeviceInfo {σ : Type} (P : Provider σ) (deviceHandle : Nat)
    (deviceProperties : LEAP_DEVICE_INFO) (g : Globals σ) :
    eLeapRS × LEAP_DEVICE_INFO × Globals σ :=
  let r := P.LeapGetDeviceInfo deviceHandle deviceProperties g.provider
  (r.1, { r.2.1 with serial := overwrite deviceProperties.serial r.2.1.serial },
    { g with provider := r.2.2,
             calls := g.calls ++ [Call.getDeviceInfo deviceHandle deviceProperties r.1] })

/-- `LeapCloseDevice(deviceHandle)`, recorded in the trace. -/
def callCloseDevice {σ : Type} (P : Provider σ) (deviceHandle : Nat)
    (g : Globals σ) : Globals σ :=
  { g with provider := P.LeapCloseDevice deviceHandle g.provider,
           calls := g.calls ++ [Call.closeDevice deviceHandle] }

/-- `handleDeviceEvent` (lines 112-143). -/
def handleDeviceEvent {σ : Type} (P : Provider σ) (device_event : LEAP_DEVICE_EVENT)
    (g : Globals σ) : Globals σ :=
  let o := P.LeapOpenDevice device_event.device g.provider
  let deviceHandle := o.2.1
  let g1 := { g with provider := o.2.2,
                     calls := g.calls ++ [Call.openDevice device_event.device o.1 o.2.1] }
  if o.1 ≠ eLeapRS.Success then g1
  else
    let deviceProperties : LEAP_DEVICE_INFO :=
      { size := P.sizeofDeviceInfo, serial_length := 1, serial := malloc P 1, rest := 0 }
    let r1 := callGetDeviceInfo P deviceHandle deviceProperties g1
    if r1.1 = eLeapRS.InsufficientBuffer then
      let grown : LEAP_DEVICE_INFO :=
        { r1.2.1 with serial := realloc P r1.2.1.serial r1.2.1.serial_length }
      let r2 := callGetDeviceInfo P deviceHandle grown r1.2.2
      if r2.1 ≠ eLeapRS.Success then r2.2.2
      else callCloseDevice P deviceHandle (setDevice P r2.2.1 r2.2.2)
    else callCloseDevice P deviceHandle (setDevice P r1.2.1 r1.2.2)

/-! ## Poll loop -/

/-- The body of the `while` loop of `serviceMessageLoop` (lines 166-181). -/
def pollOnce {σ : Type} (P : Provider σ) (g : Globals σ) : Globals σ :=
  let timeout := 1000
  let r := P.LeapPollConnection g.leapHandle timeout g.provider
  let g1 := { g with provider := r.2.2,
                     calls := g.calls ++ [Call.pollConnection g.leapHandle timeout r.1 r.2.1] }
  if r.1 ≠ eLeapRS.Success then g1
  else
    match r.2.1 with
    | LEAP_CONNECTION_MESSAGE.Tracking tracking_event => setFrame tracking_event g1
    | LEAP_CONNECTION_MESSAGE.Device device_event => handleDeviceEvent P device_event g1
    | LEAP_CONNECTION_MESSAGE.Connection => { g1 with IsConnected := true }
    | LEAP_CONNECTION_MESSAGE.Other _ => g1

/-- `serviceMessageLoop` (lines 162-184), cut off after `fuel` tests of the loop
condition `_isRunning`. -/
def serviceMessageLoop {σ : Type} (P : Provider σ) : Nat → Globals σ → Globals σ
  | 0, g => g
  | fuel + 1, g => if g._isRunning then serviceMessageLoop P fuel (pollOnce P g) else g

/-! ## The whole program as a transition system -/

/-- What can happen next: a thread calls `OpenConnection`, or the poll thread
tests its loop condition and, when it holds, runs the loop body once. -/
inductive Action
  | OpenConnection
  | poll
  deriving DecidableEq

/-- One step of the program. -/
def step {σ : Type} (P : Provider σ) (g : Globals σ) : Action → Globals σ
  | Action.OpenConnection => (OpenConnection P g).2
  | Action.poll => serviceMessageLoop P 1 g

/-- The state after a sequence of steps. -/
def run {σ : Type} (P : Provider σ) (g : Globals σ) (as : List Action) : Globals σ :=
  as.foldl (step P) g

/-- A sequence of `setFrame` calls, in order. -/
def writeFrames {σ : Type} (fs : List LEAP_TRACKING_EVENT) (g : Globals σ) : Globals σ :=
  fs.foldl (fun g f => setFrame f g) g

/-- A sequence of `setDevice` calls, in order. -/
def writeDevices {σ : Type} (P : Provider σ) (ds : List LEAP_DEVICE_INFO)
    (g : Globals σ) : Globals σ :=
  ds.foldl (fun g d => setDevice P d g) g

/-- The trace entries that record the dispatch of a Connection event: a poll
that returned `eLeapRS_Success` with a message of type Connection. -/
def Call.isConnectionEvent : Call → Bool
  | Call.pollConnection _ _ result msg =>
      decide (result = eLeapRS.Success) && decide (msg = LEAP_CONNECTION_MESSAGE.Connection)
  | _ => false

/-- The number of poll threads created is one when the manager is running and
zero when it is not. -/
def threadsMatch {σ : Type} (g : Globals σ) : Prop :=
  g.pollingThreads = if g._isRunning then 1 else 0

/-- The readiness flag is set exactly when the trace holds the dispatch of a
Connection event. -/
def readinessMatches {σ : Type} (g : Globals σ) : Prop :=
  g.IsConnected = g.calls.any Call.isConnectionEvent

/-! ## Two threads on the frame slot

The consumer of `main` (lines 206-217) calls `GetFrame` and then loads members
of the frame through the pointer it was given, outside any critical section.
The steps below are the atomic steps of an interleaving of the poll thread and
one consumer: each critical section is one step, each load is one step. -/

/-- The members `main` loads through the pointer (lines 207-211). -/
inductive Member
  | tracking_frame_id
  | nHands
  | pHands
  deriving DecidableEq

/-- The value of one member of a frame. -/
def LEAP_TRACKING_EVENT.load (f : LEAP_TRACKING_EVENT) : Member → Int
  | Member.tracking_frame_id => f.tracking_frame_id
  | Member.nHands => f.nHands
  | Member.pHands => f.pHands

/-- One atomic step: the poll thread runs `setFrame` (lock to unlock), the
consumer runs `GetFrame` (lock to unlock), or the consumer loads `frame->m`. -/
inductive Event
  | setFrame (frame : LEAP_TRACKING_EVENT)
  | GetFrame
  | load (m : Member)
  deriving DecidableEq

/-- The locals of the consumer: `frame` tells whether the pointer it holds is
non-`NULL` (the one non-`NULL` pointer `GetFrame` returns is the address of the
slot, allocated once and never freed), `loaded` lists the members loaded through
it since the last `GetFrame`, with the values seen. -/
structure Consumer where
  frame : Bool
  loaded : List (Member × Int)
  deriving DecidableEq

/-- The effect of one atomic step.  A load reads the slot as it is at that
moment; `main` loads only after testing the pointer (`if(frame && ...)`). -/
def stepEvent {σ : Type} (s : Globals σ × Consumer) : Event → Globals σ × Consumer
  | Event.setFrame frame => (setFrame frame s.1, s.2)
  | Event.GetFrame => (s.1, { frame := (GetFrame s.1).isSome, loaded := [] })
  | Event.load m =>
      match s.2.frame, s.1.lastFrame with
      | true, some f => (s.1, { s.2 with loaded := s.2.loaded ++ [(m, f.load m)] })
      | _, _ => s

/-- The state after an interleaving, from program start. -/
def runEvents {σ : Type} (p : σ) (evs : List Event) : Globals σ × Consumer :=
  evs.foldl stepEvent (Globals.init p, { frame := false, loaded := [] })

/-- The frames of the `setFrame` calls of an interleaving, in order. -/
def framesWritten : List Event → List LEAP_TRACKING_EVENT
  | [] => []
  | Event.setFrame frame :: evs => frame :: framesWritten evs
  | _ :: evs => framesWritten evs

/-! ## A scripted provider -/

/-- The answers a simulated provider gives, consumed from the front: for each
`LeapGetDeviceInfo` call a result code and either `none` (the struct is left as
it was) or the serial length it reports and the bytes it writes. -/
structure Script where
  create : List (eLeapRS × Nat)
  activate : List eLeapRS
  polls : List (eLeapRS × LEAP_CONNECTION_MESSAGE)
  openDev : List (eLeapRS × Nat)
  getInfo : List (eLeapRS × Option (Nat × List Nat))
  closed : List Nat
  deriving DecidableEq

/-- The simulated provider that plays a `Script`; a call with nothing left in
the script fails (a poll times out). -/
def scripted : Provider Script where
  LeapCreateConnection := fun s =>
    match s.create with
    | [] => (eLeapRS.UnknownError, 0, s)
    | a :: rest => (a.1, a.2, { s with create := rest })
  LeapOpenConnection := fun _ s =>
    match s.activate with
    | [] => (eLeapRS.UnknownError, s)
    | a :: rest => (a, { s with activate := rest })
  LeapPollConnection := fun _ _ s =>
    match s.polls with
    | [] => (eLeapRS.Timeout, LEAP_CONNECTION_MESSAGE.Other 0, s)
    | a :: rest => (a.1, a.2, { s with polls := rest })
  LeapOpenDevice := fun _ s =>
    match s.openDev with
    | [] => (eLeapRS.CannotOpenDevice, 0, s)
    | a :: rest => (a.1, a.2, { s with openDev := rest })
  LeapGetDeviceInfo := fun _ info s =>
    match s.getInfo with
    | [] => (eLeapRS.UnknownError, info, s)
    | (r, none) :: rest => (r, info, { s with getInfo := rest })
    | (r, some w) :: rest =>
        (r, { info with serial_length := w.1, serial := w.2 }, { s with getInfo := rest })
  LeapCloseDevice := fun h s => { s with closed := s.closed ++ [h] }
  heapByte := fun _ => 0
  sizeofDeviceInfo := 44

/-- A script with nothing in it. -/
def Script.empty : Script :=
  { create := [], activate := [], polls := [], openDev := [], getInfo := [], closed := [] }

/-- The provider creates session 42 and activates it. -/
def scriptOpenOk : Script :=
  { Script.empty with create := [(eLeapRS.Success, 42)], activate := [eLeapRS.Success] }

/-- The provider fails to create a session once, then creates session 42. -/
def scriptCreateFails : Script :=
  { Script.empty with
    create := [(eLeapRS.UnknownError, 0), (eLeapRS.Success, 42)],
    activate := [eLeapRS.Success] }

/-- The provider creates session 42, refuses to activate it once, then activates it. -/
def scriptActivateFails : Script :=
  { Script.empty with
    create := [(eLeapRS.Success, 42)],
    activate := [eLeapRS.NotConnected, eLeapRS.Success] }

/-- The device opens with handle 7; the first `LeapGetDeviceInfo` fails with
`eLeapRS_UnknownError` and leaves the struct as it was. -/
def scriptFetchFails : Script :=
  { Script.empty with
    openDev := [(eLeapRS.Success, 7)],
    getInfo := [(eLeapRS.UnknownError, none)] }

/-- The device opens with handle 7; the first `LeapGetDeviceInfo` reports that 8
bytes are needed, the retry fails with `eLeapRS_UnknownError`. -/
def scriptRetryFails : Script :=
  { Script.empty with
    openDev := [(eLeapRS.Success, 7)],
    getInfo := [(eLeapRS.InsufficientBuffer, some (8, [])),
                (eLeapRS.UnknownError, none)] }

/-- Frames with sequence identifiers 5, 7 and 6. -/
def frame5 : LEAP_TRACKING_EVENT :=
  { tracking_frame_id := 5, nHands := 1, pHands := 4096, rest := 0 }

/-- The frame with sequence identifier 7. -/
def frame7 : LEAP_TRACKING_EVENT :=
  { tracking_frame_id := 7, nHands := 0, pHands := 4096, rest := 0 }

/-- The frame with sequence identifier 6. -/
def frame6 : LEAP_TRACKING_EVENT :=
  { tracking_frame_id := 6, nHands := 2, pHands := 4096, rest := 0 }

/-- The session opens, then the polls deliver a timeout, a Connection event, a
failed poll and a Tracking event. -/
def scriptSession : Script :=
  { scriptOpenOk with
    polls := [(eLeapRS.Timeout, LEAP_CONNECTION_MESSAGE.Other 0),
              (eLeapRS.Success, LEAP_CONNECTION_MESSAGE.Connection),
              (eLeapRS.NotConnected, LEAP_CONNECTION_MESSAGE.Other 0),
              (eLeapRS.Success, LEAP_CONNECTION_MESSAGE.Tracking frame5)] }

/-- An interleaving in which a `setFrame` runs between two loads of the consumer. -/
def tornRead : List Event :=
  [Event.setFrame frame5, Event.GetFrame, Event.load Member.tracking_frame_id,
   Event.setFrame frame6, Event.load Member.nHands]

/-! ## Helper lemmas: what each function writes -/

theorem setFrame_eq {σ : Type} (frame : LEAP_TRACKING_EVENT) (g : Globals σ) :
    setFrame frame g = { g with lastFrame := some frame } := by
  unfold setFrame
  cases h : g.lastFrame <;> simp [h]

theorem setDevice_eq {σ : Type} (P : Provider σ) (d : LEAP_DEVICE_INFO) (g : Globals σ) :
    setDevice P d g =
      { g with lastDevice := some { d with serial := memcpy P d.serial d.serial_length } } := by
  unfold setDevice
  cases h : g.lastDevice <;> simp [h]

theorem handleDeviceEvent_frame {σ : Type} (P : Provider σ) (e : LEAP_DEVICE_EVENT)
    (g : Globals σ) :
    (handleDeviceEvent P e g).leapHandle = g.leapHandle ∧
    (handleDeviceEvent P e g)._isRunning = g._isRunning ∧
    (handleDeviceEvent P e g).IsConnected = g.IsConnected ∧
    (handleDeviceEvent P e g).lastFrame = g.lastFrame ∧
    (handleDeviceEvent P e g).pollingThreads = g.pollingThreads := by
  unfold handleDeviceEvent
  simp only [setDevice_eq, callCloseDevice, callGetDeviceInfo]
  split_ifs <;> simp

theorem pollOnce_frame {σ : Type} (P : Provider σ) (g : Globals σ) :
    (pollOnce P g).leapHandle = g.leapHandle ∧
    (pollOnce P g)._isRunning = g._isRunning ∧
    (pollOnce P g).pollingThreads = g.pollingThreads := by
  unfold pollOnce
  simp only
  split_ifs
  · simp
  · split
    · simp [setFrame_eq]
    · rename_i e _
      have h := handleDeviceEvent_frame P e
        { g with provider := (P.LeapPollConnection g.leapHandle 1000 g.provider).2.2,
                 calls := g.calls ++ [Call.pollConnection g.leapHandle 1000
                   (P.LeapPollConnection g.leapHandle 1000 g.provider).1
                   (P.LeapPollConnection g.leapHandle 1000 g.provider).2.1] }
      exact ⟨h.1, h.2.1, h.2.2.2.2⟩
    · simp
    · simp

theorem serviceMessageLoop_one {σ : Type} (P : Provider σ) (g : Globals σ) :
    serviceMessageLoop P 1 g = if g._isRunning then pollOnce P g else g := by
  simp [serviceMessageLoop]

theorem OpenConnection_threadsMatch {σ : Type} (P : Provider σ) (g : Globals σ)
    (h : threadsMatch g) : threadsMatch (OpenConnection P g).2 := by
  unfold threadsMatch at *
  unfold OpenConnection haveConnection
  by_cases hr : g._isRunning = true
  · simp [hr] at h ⊢
    exact h
  · simp only [Bool.not_eq_true] at hr
    simp only [hr, Bool.false_eq_true, if_false] at h ⊢
    split_ifs <;> simp_all

theorem step_threadsMatch {σ : Type} (P : Provider σ) (g : Globals σ) (a : Action)
    (h : threadsMatch g) : threadsMatch (step P g a) := by
  cases a with
  | OpenConnection => exact OpenConnection_threadsMatch P g h
  | poll =>
    unfold threadsMatch at *
    simp only [step, serviceMessageLoop_one]
    by_cases hr : g._isRunning = true
    · rw [if_pos hr, (pollOnce_frame P g).2.2, (pollOnce_frame P g).2.1]
      exact h
    · rw [if_neg hr]
      exact h

theorem run_threadsMatch {σ : Type} (P : Provider σ) (as : List Action) :
    ∀ g : Globals σ, threadsMatch g → threadsMatch (run P g as) := by
  induction as with
  | nil => intro g h; exact h
  | cons a as ih => intro g h; exact ih (step P g a) (step_threadsMatch P g a h)

theorem step_leapHandle {σ : Type} (P : Provider σ) (g : Globals σ) (a : Action)
    (h : g.leapHandle ≠ 0) : (step P g a).leapHandle = g.leapHandle := by
  cases a with
  | OpenConnection =>
    simp only [step, OpenConnection, haveConnection]
    split_ifs <;> simp_all
  | poll =>
    simp only [step, serviceMessageLoop_one]
    split_ifs
    · exact (pollOnce_frame P g).1
    · rfl

theorem run_leapHandle {σ : Type} (P : Provider σ) (as : List Action) :
    ∀ g : Globals σ, g.leapHandle ≠ 0 → (run P g as).leapHandle = g.leapHandle := by
  induction as with
  | nil => intro g _; rfl
  | cons a as ih =>
    intro g h
    have h1 := step_leapHandle P g a h
    have h2 := ih (step P g a) (by rw [h1]; exact h)
    exact h2.trans h1

theorem OpenConnection_fst {σ : Type} (P : Provider σ) (g : Globals σ) :
    (OpenConnection P g).1 = (OpenConnection P g).2.leapHandle := by
  unfold OpenConnection
  dsimp only
  split_ifs <;> rfl

theorem OpenConnection_running {σ : Type} (P : Provider σ) (g : Globals σ)
    (h : g._isRunning = true) : OpenConnection P g = (g.leapHandle, g) := by
  simp [OpenConnection, h]

theorem OpenConnection_calls_of_null {σ : Type} (P : Provider σ) (g : Globals σ)
    (hrun : g._isRunning = false) (hnull : g.leapHandle = 0) :
    ∃ rest, (OpenConnection P g).2.calls =
      g.calls ++ Call.createConnection (P.LeapCreateConnection g.provider).1
        (P.LeapCreateConnection g.provider).2.1 :: rest := by
  by_cases hs : (P.LeapCreateConnection g.provider).1 = eLeapRS.Success
  · exact ⟨[Call.openConnection (P.LeapCreateConnection g.provider).2.1
        (P.LeapOpenConnection (P.LeapCreateConnection g.provider).2.1
          (P.LeapCreateConnection g.provider).2.2).1], by
      by_cases ha : (P.LeapOpenConnection (P.LeapCreateConnection g.provider).2.1
          (P.LeapCreateConnection g.provider).2.2).1 = eLeapRS.Success
      · simp [OpenConnection, haveConnection, hrun, hnull, hs, ha]
      · simp [OpenConnection, haveConnection, hrun, hnull, hs, ha]⟩
  · exact ⟨[], by simp [OpenConnection, haveConnection, hrun, hnull, hs]⟩

theorem OpenConnection_of_handle {σ : Type} (P : Provider σ) (g : Globals σ)
    (hrun : g._isRunning = false) (hh : g.leapHandle ≠ 0) :
    OpenConnection P g =
      if (P.LeapOpenConnection g.leapHandle g.provider).1 = eLeapRS.Success then
        (g.leapHandle,
          { g with provider := (P.LeapOpenConnection g.leapHandle g.provider).2,
                   calls := g.calls ++ [Call.openConnection g.leapHandle
                     (P.LeapOpenConnection g.leapHandle g.provider).1],
                   _isRunning := true, pollingThreads := g.pollingThreads + 1 })
      else
        (g.leapHandle,
          { g with provider := (P.LeapOpenConnection g.leapHandle g.provider).2,
                   calls := g.calls ++ [Call.openConnection g.leapHandle
                     (P.LeapOpenConnection g.leapHandle g.provider).1] }) := by
  simp [OpenConnection, haveConnection, hrun, hh]

theorem length_malloc {σ : Type} (P : Provider σ) (n : Nat) : (malloc P n).length = n := by
  simp [malloc]

theorem memcpy_of_length {σ : Type} (P : Provider σ) (src : List Nat) (n : Nat)
    (h : src.length = n) : memcpy P src n = src := by
  subst h
  simp [memcpy, List.drop_eq_nil_iff, length_malloc]

/-! ## Connection manager: theorems -/

/-- C1 (idempotent open).  In any state reached from the initial state, if an
`OpenConnection` call leaves the manager running, then a second call returns the
same handle and the same state as the first (no provider call is added to the
trace, the provider state is untouched, no thread is created), and exactly one
poll thread has been created in total. -/
theorem open_idempotent {σ : Type} (P : Provider σ) (p : σ) (as : List Action)
    (h : (OpenConnection P (run P (Globals.init p) as)).2._isRunning = true) :
    OpenConnection P (OpenConnection P (run P (Globals.init p) as)).2
        = OpenConnection P (run P (Globals.init p) as) ∧
      (OpenConnection P (OpenConnection P (run P (Globals.init p) as)).2).2.calls
        = (OpenConnection P (run P (Globals.init p) as)).2.calls ∧
      (OpenConnection P (OpenConnection P (run P (Globals.init p) as)).2).2.pollingThreads = 1 := by
  have hinv : threadsMatch (OpenConnection P (run P (Globals.init p) as)).2 :=
    OpenConnection_threadsMatch P _ (run_threadsMatch P as _ (by simp [threadsMatch, Globals.init]))
  have hidem : OpenConnection P (OpenConnection P (run P (Globals.init p) as)).2
      = OpenConnection P (run P (Globals.init p) as) := by
    rw [OpenConnection_running P _ h, ← OpenConnection_fst]
  refine ⟨hidem, by rw [hidem], ?_⟩
  rw [hidem]
  unfold threadsMatch at hinv
  rw [hinv, if_pos h]

/-- C1, at the scripted provider that creates and activates session 42: the
second call changes nothing and one thread exists. -/
theorem open_idempotent_witness :
    OpenConnection scripted (OpenConnection scripted (run scripted (Globals.init scriptOpenOk) [])).2
        = OpenConnection scripted (run scripted (Globals.init scriptOpenOk) []) ∧
      (OpenConnection scripted
        (OpenConnection scripted (run scripted (Globals.init scriptOpenOk) [])).2).2.calls
        = (OpenConnection scripted (run scripted (Globals.init scriptOpenOk) [])).2.calls ∧
      (OpenConnection scripted
        (OpenConnection scripted (run scripted (Globals.init scriptOpenOk) [])).2).2.pollingThreads = 1 :=
  open_idempotent scripted scriptOpenOk [] (by decide)

/-- C5 (creation failure).  With no handle and the manager not running, when
`LeapCreateConnection` fails and leaves no handle, `OpenConnection` returns the
`NULL` handle, makes that one provider call only (`LeapOpenConnection` is not
called), creates no thread, leaves `_isRunning` false and `IsConnected` and both
cache slots as they were; and the next `OpenConnection` call starts by calling
`LeapCreateConnection` again. -/
theorem open_creation_failure {σ : Type} (P : Provider σ) (g : Globals σ)
    (r : eLeapRS) (p1 : σ)
    (hrun : g._isRunning = false) (hnull : g.leapHandle = 0)
    (hc : P.LeapCreateConnection g.provider = (r, 0, p1)) (hr : r ≠ eLeapRS.Success) :
    (OpenConnection P g).1 = 0 ∧
      (OpenConnection P g).2 =
        { g with provider := p1, calls := g.calls ++ [Call.createConnection r 0] } ∧
      (OpenConnection P g).2.pollingThreads = g.pollingThreads ∧
      (OpenConnection P g).2._isRunning = false ∧
      (OpenConnection P g).2.IsConnected = g.IsConnected ∧
      ∃ rest, (OpenConnection P (OpenConnection P g).2).2.calls =
        (OpenConnection P g).2.calls ++
          Call.createConnection (P.LeapCreateConnection p1).1 (P.LeapCreateConnection p1).2.1
            :: rest := by
  have h1 : OpenConnection P g =
      (0, { g with provider := p1, calls := g.calls ++ [Call.createConnection r 0] }) := by
    simp [OpenConnection, haveConnection, hrun, hnull, hc, hr]
  rw [h1]
  refine ⟨rfl, ?_, rfl, hrun, rfl, ?_⟩
  · cases g; simp_all
  · exact OpenConnection_calls_of_null P
      { g with provider := p1, calls := g.calls ++ [Call.createConnection r 0] } hrun hnull

/-- C5, at the scripted provider whose first `LeapCreateConnection` fails. -/
theorem open_creation_failure_witness :
    (OpenConnection scripted (Globals.init scriptCreateFails)).1 = 0 ∧
      (OpenConnection scripted (Globals.init scriptCreateFails)).2._isRunning = false ∧
      (OpenConnection scripted (Globals.init scriptCreateFails)).2.IsConnected = false ∧
      (OpenConnection scripted (Globals.init scriptCreateFails)).2.pollingThreads = 0 :=
  have h := open_creation_failure scripted (Globals.init scriptCreateFails)
    eLeapRS.UnknownError { scriptCreateFails with create := [(eLeapRS.Success, 42)] }
    rfl rfl rfl (by decide)
  ⟨h.1, h.2.2.2.1, h.2.2.2.2.1, h.2.2.1⟩

/-- C6 (activation failure and handle reuse).  With no handle and the manager
not running, when `LeapCreateConnection` succeeds with handle `h` and
`LeapOpenConnection` fails, `OpenConnection` returns `h`, creates no thread and
leaves `_isRunning` false.  After any later sequence of steps the handle is still
`h`, and an `OpenConnection` call made while the manager is not running makes
exactly one provider call, `LeapOpenConnection` on `h` (no `LeapCreateConnection`),
returns `h`, and creates exactly one thread if that activation succeeds and none
if it fails. -/
theorem open_activation_failure {σ : Type} (P : Provider σ) (g : Globals σ)
    (h : Nat) (p1 : σ) (r : eLeapRS) (p2 : σ)
    (hrun : g._isRunning = false) (hnull : g.leapHandle = 0)
    (hc : P.LeapCreateConnection g.provider = (eLeapRS.Success, h, p1)) (hh : h ≠ 0)
    (ha : P.LeapOpenConnection h p1 = (r, p2)) (hr : r ≠ eLeapRS.Success) :
    OpenConnection P g =
        (h, { g with leapHandle := h, provider := p2,
                     calls := g.calls ++ [Call.createConnection eLeapRS.Success h,
                                          Call.openConnection h r] }) ∧
      (OpenConnection P g).2._isRunning = false ∧
      (OpenConnection P g).2.pollingThreads = g.pollingThreads ∧
      ∀ as : List Action,
        (run P (OpenConnection P g).2 as).leapHandle = h ∧
        ((run P (OpenConnection P g).2 as)._isRunning = false →
          (OpenConnection P (run P (OpenConnection P g).2 as)).1 = h ∧
          (OpenConnection P (run P (OpenConnection P g).2 as)).2.calls =
            (run P (OpenConnection P g).2 as).calls ++
              [Call.openConnection h
                (P.LeapOpenConnection h (run P (OpenConnection P g).2 as).provider).1] ∧
          ((P.LeapOpenConnection h (run P (OpenConnection P g).2 as).provider).1
              = eLeapRS.Success →
            (OpenConnection P (run P (OpenConnection P g).2 as)).2._isRunning = true ∧
            (OpenConnection P (run P (OpenConnection P g).2 as)).2.pollingThreads =
              (run P (OpenConnection P g).2 as).pollingThreads + 1) ∧
          ((P.LeapOpenConnection h (run P (OpenConnection P g).2 as).provider).1
              ≠ eLeapRS.Success →
            (OpenConnection P (run P (OpenConnection P g).2 as)).2._isRunning = false ∧
            (OpenConnection P (run P (OpenConnection P g).2 as)).2.pollingThreads =
              (run P (OpenConnection P g).2 as).pollingThreads)) := by
  have h1 : OpenConnection P g =
      (h, { g with leapHandle := h, provider := p2,
                   calls := g.calls ++ [Call.createConnection eLeapRS.Success h,
                                        Call.openConnection h r] }) := by
    simp [OpenConnection, haveConnection, hrun, hnull, hc, ha, hr]
  rw [h1]
  refine ⟨rfl, hrun, rfl, ?_⟩
  intro as
  have hk := run_leapHandle P as
    { g with leapHandle := h, provider := p2,
             calls := g.calls ++ [Call.createConnection eLeapRS.Success h,
                                  Call.openConnection h r] } hh
  dsimp only at hk ⊢
  refine ⟨hk, ?_⟩
  intro hnr
  have hne := ne_of_eq_of_ne hk hh
  rw [OpenConnection_of_handle P _ hnr hne, hk]
  refine ⟨?_, ?_, ?_, ?_⟩
  · split_ifs <;> rfl
  · split_ifs <;> rfl
  · intro hs
    rw [if_pos hs]
    exact ⟨rfl, rfl⟩
  · intro hs
    rw [if_neg hs]
    exact ⟨hnr, rfl⟩

/-- C6, at the scripted provider that refuses the first activation of session 42:
the first call returns 42 with no thread, the second call activates 42 and
creates the one thread. -/
theorem open_activation_failure_witness :
    (OpenConnection scripted (Globals.init scriptActivateFails)).1 = 42 ∧
      (OpenConnection scripted (Globals.init scriptActivateFails)).2.pollingThreads = 0 ∧
      (OpenConnection scripted
        (OpenConnection scripted (Globals.init scriptActivateFails)).2).2.calls =
        [Call.createConnection eLeapRS.Success 42,
         Call.openConnection 42 eLeapRS.NotConnected,
         Call.openConnection 42 eLeapRS.Success] ∧
      (OpenConnection scripted
        (OpenConnection scripted (Globals.init scriptActivateFails)).2).2.pollingThreads = 1 :=
  have h := open_activation_failure scripted (Globals.init scriptActivateFails) 42
    { scriptActivateFails with create := [] } eLeapRS.NotConnected
    { scriptActivateFails with create := [], activate := [eLeapRS.Success] }
    rfl rfl rfl (by decide) rfl (by decide)
  ⟨congrArg Prod.fst h.1, h.2.2.1, ((h.2.2.2 []).2 rfl).2.1, (((h.2.2.2 []).2 rfl).2.2.1 rfl).2⟩

/-! ## Device descriptor negotiator: theorems -/

/-- C3, the failing input: the device opens and the first `LeapGetDeviceInfo`
fails with `eLeapRS_UnknownError`.  No call returned `eLeapRS_Success`, yet the
device slot, empty before, holds a descriptor afterwards (one byte of
indeterminate serial); a slot that held a descriptor is overwritten likewise. -/
theorem handleDeviceEvent_publishes_after_failed_fetch :
    GetDeviceProperties (Globals.init scriptFetchFails) = none ∧
      (handleDeviceEvent scripted { device := 3 } (Globals.init scriptFetchFails)).calls =
        [Call.openDevice 3 eLeapRS.Success 7,
         Call.getDeviceInfo 7 { size := 44, serial_length := 1, serial := [0], rest := 0 }
           eLeapRS.UnknownError,
         Call.closeDevice 7] ∧
      GetDeviceProperties
          (handleDeviceEvent scripted { device := 3 } (Globals.init scriptFetchFails))
        = some { size := 44, serial_length := 1, serial := [0], rest := 0 } ∧
      GetDeviceProperties
          (handleDeviceEvent scripted { device := 3 }
            { Globals.init scriptFetchFails with
              lastDevice := some { size := 44, serial_length := 8, rest := 5,
                                   serial := [65, 66, 67, 49, 50, 51, 52, 53] } })
        = some { size := 44, serial_length := 1, serial := [0], rest := 0 } := by
  decide

/-- C4, the failing input: the device opens with handle 7, the first
`LeapGetDeviceInfo` reports that 8 bytes are needed and the retry fails.
`handleDeviceEvent` returns after three provider calls, none of which is
`LeapCloseDevice`: handle 7 stays open. -/
theorem handleDeviceEvent_leaves_handle_open_after_failed_retry :
    (handleDeviceEvent scripted { device := 3 } (Globals.init scriptRetryFails)).calls =
        [Call.openDevice 3 eLeapRS.Success 7,
         Call.getDeviceInfo 7 { size := 44, serial_length := 1, serial := [0], rest := 0 }
           eLeapRS.InsufficientBuffer,
         Call.getDeviceInfo 7
           { size := 44, serial_length := 8, serial := [0, 0, 0, 0, 0, 0, 0, 0], rest := 0 }
           eLeapRS.UnknownError] ∧
      Call.closeDevice 7 ∉
        (handleDeviceEvent scripted { device := 3 } (Globals.init scriptRetryFails)).calls ∧
      (handleDeviceEvent scripted { device := 3 }
        (Globals.init scriptRetryFails)).provider.closed = [] := by
  decide

/-! ## Latest-value cache: theorems -/

theorem writeFrames_concat {σ : Type} (fs : List LEAP_TRACKING_EVENT)
    (f : LEAP_TRACKING_EVENT) (g : Globals σ) :
    writeFrames (fs ++ [f]) g = setFrame f (writeFrames fs g) := by
  simp [writeFrames]

theorem writeDevices_concat {σ : Type} (P : Provider σ) (ds : List LEAP_DEVICE_INFO)
    (d : LEAP_DEVICE_INFO) (g : Globals σ) :
    writeDevices P (ds ++ [d]) g = setDevice P d (writeDevices P ds g) := by
  simp [writeDevices]

theorem writeDevices_read {σ : Type} (P : Provider σ) (p : σ) (ds : List LEAP_DEVICE_INFO) :
    GetDeviceProperties (writeDevices P ds (Globals.init p)) =
      ds.getLast?.map (fun d => { d with serial := memcpy P d.serial d.serial_length }) := by
  induction ds using List.reverseRecOn with
  | nil => rfl
  | append_singleton ds d _ =>
    rw [writeDevices_concat, setDevice_eq, List.getLast?_concat]
    rfl

/-- C7 (last-value-wins read).  After any finite sequence of `setFrame` calls
from the initial state, `GetFrame` returns `NULL` when the sequence is empty and
otherwise the last frame written, whatever the sequence identifiers.  After any
finite sequence of `setDevice` calls, `GetDeviceProperties` returns `NULL` when
the sequence is empty and otherwise the last descriptor written: the descriptor
itself when its serial buffer is exactly `serial_length` bytes long, and in
general (buffer at least `serial_length` bytes long) the descriptor with the
first `serial_length` bytes of its serial. -/
theorem last_value_wins {σ : Type} (P : Provider σ) (p : σ) :
    (∀ fs : List LEAP_TRACKING_EVENT,
        GetFrame (writeFrames fs (Globals.init p)) = fs.getLast?) ∧
      (∀ ds : List LEAP_DEVICE_INFO, (∀ d ∈ ds, d.serial.length = d.serial_length) →
        GetDeviceProperties (writeDevices P ds (Globals.init p)) = ds.getLast?) ∧
      (∀ ds : List LEAP_DEVICE_INFO, (∀ d ∈ ds, d.serial_length ≤ d.serial.length) →
        GetDeviceProperties (writeDevices P ds (Globals.init p)) =
          ds.getLast?.map (fun d => { d with serial := d.serial.take d.serial_length })) := by
  refine ⟨?_, ?_, ?_⟩
  · intro fs
    induction fs using List.reverseRecOn with
    | nil => rfl
    | append_singleton fs f _ =>
      rw [writeFrames_concat, setFrame_eq, List.getLast?_concat]
      rfl
  · intro ds hds
    rw [writeDevices_read]
    cases hl : ds.getLast? with
    | none => rfl
    | some d =>
      have hd := hds d (List.mem_of_getLast?_eq_some hl)
      simp only [Option.map_some']
      rw [memcpy_of_length P d.serial d.serial_length hd]
  · intro ds hds
    rw [writeDevices_read]
    cases hl : ds.getLast? with
    | none => rfl
    | some d =>
      have hd := hds d (List.mem_of_getLast?_eq_some hl)
      simp only [Option.map_some']
      have : memcpy P d.serial d.serial_length = d.serial.take d.serial_length := by
        simp [memcpy, List.drop_eq_nil_iff, length_malloc, hd]
      rw [this]

/-- C7, Scenario A: after writes with identifiers 5, 7, 6 the read has
identifier 6; and a descriptor written after another one is the one read. -/
theorem last_value_wins_witness :
    GetFrame (writeFrames [frame5, frame7, frame6] (Globals.init Script.empty)) = some frame6 ∧
      GetDeviceProperties (writeDevices scripted
          [{ size := 44, serial_length := 2, serial := [88, 89], rest := 0 },
           { size := 44, serial_length := 3, serial := [65, 66, 67], rest := 1 }]
          (Globals.init Script.empty))
        = some { size := 44, serial_length := 3, serial := [65, 66, 67], rest := 1 } :=
  ⟨(last_value_wins scripted Script.empty).1 [frame5, frame7, frame6],
   (last_value_wins scripted Script.empty).2.1 _ (by decide)⟩

/-! ## Poll loop: theorems -/

theorem handleDeviceEvent_connectionEvents {σ : Type} (P : Provider σ)
    (e : LEAP_DEVICE_EVENT) (g : Globals σ) :
    (handleDeviceEvent P e g).calls.any Call.isConnectionEvent =
      g.calls.any Call.isConnectionEvent := by
  unfold handleDeviceEvent
  simp only [setDevice_eq, callCloseDevice, callGetDeviceInfo]
  split_ifs <;> simp [List.any_append, Call.isConnectionEvent]

theorem OpenConnection_readinessMatches {σ : Type} (P : Provider σ) (g : Globals σ)
    (h : readinessMatches g) : readinessMatches (OpenConnection P g).2 := by
  unfold readinessMatches at *
  unfold OpenConnection haveConnection
  dsimp only
  split_ifs <;> simp [List.any_append, Call.isConnectionEvent, h]

theorem pollOnce_readinessMatches {σ : Type} (P : Provider σ) (g : Globals σ)
    (h : readinessMatches g) : readinessMatches (pollOnce P g) := by
  unfold readinessMatches at *
  unfold pollOnce
  dsimp only
  split_ifs with hs
  · simp [List.any_append, Call.isConnectionEvent, h, hs]
  · simp only [ne_eq, not_not] at hs
    split
    · rename_i f hm
      simp [setFrame_eq, List.any_append, Call.isConnectionEvent, h, hm]
    · rename_i e hm
      rw [handleDeviceEvent_connectionEvents, (handleDeviceEvent_frame P e _).2.2.1]
      simp [List.any_append, Call.isConnectionEvent, h, hm]
    · rename_i hm
      simp [List.any_append, Call.isConnectionEvent, hs, hm]
    · rename_i t hm
      simp [List.any_append, Call.isConnectionEvent, h, hm]

theorem step_readinessMatches {σ : Type} (P : Provider σ) (g : Globals σ) (a : Action)
    (h : readinessMatches g) : readinessMatches (step P g a) := by
  cases a with
  | OpenConnection => exact OpenConnection_readinessMatches P g h
  | poll =>
    simp only [step, serviceMessageLoop_one]
    split_ifs
    · exact pollOnce_readinessMatches P g h
    · exact h

theorem run_readinessMatches {σ : Type} (P : Provider σ) (as : List Action) :
    ∀ g : Globals σ, readinessMatches g → readinessMatches (run P g as) := by
  induction as with
  | nil => intro g h; exact h
  | cons a as ih => intro g h; exact ih (step P g a) (step_readinessMatches P g a h)

theorem OpenConnection_IsConnected {σ : Type} (P : Provider σ) (g : Globals σ) :
    (OpenConnection P g).2.IsConnected = g.IsConnected := by
  unfold OpenConnection haveConnection
  dsimp only
  split_ifs <;> rfl

theorem pollOnce_IsConnected {σ : Type} (P : Provider σ) (g : Globals σ)
    (h : g.IsConnected = true) : (pollOnce P g).IsConnected = true := by
  unfold pollOnce
  dsimp only
  split_ifs
  · exact h
  · split
    · simp [setFrame_eq, h]
    · rename_i e _
      rw [(handleDeviceEvent_frame P e _).2.2.1]
      exact h
    · rfl
    · exact h

theorem step_IsConnected {σ : Type} (P : Provider σ) (g : Globals σ) (a : Action)
    (h : g.IsConnected = true) : (step P g a).IsConnected = true := by
  cases a with
  | OpenConnection => simp only [step, OpenConnection_IsConnected, h]
  | poll =>
    simp only [step, serviceMessageLoop_one]
    split_ifs
    · exact pollOnce_IsConnected P g h
    · exact h

theorem run_IsConnected {σ : Type} (P : Provider σ) (as : List Action) :
    ∀ g : Globals σ, g.IsConnected = true → (run P g as).IsConnected = true := by
  induction as with
  | nil => intro g h; exact h
  | cons a as ih => intro g h; exact ih (step P g a) (step_IsConnected P g a h)

/-- C8 (one-way readiness flag).  After any sequence of `OpenConnection` calls
and poll-loop iterations from the initial state, `IsConnected` is true exactly
when the trace holds a poll that returned `eLeapRS_Success` with a Connection
message, that is when the poll loop has dispatched a Connection event; and once
`IsConnected` is true it is true after any further sequence of steps. -/
theorem readiness_one_way {σ : Type} (P : Provider σ) (p : σ) (as : List Action) :
    ((run P (Globals.init p) as).IsConnected = true ↔
        ∃ c ∈ (run P (Globals.init p) as).calls, Call.isConnectionEvent c = true) ∧
      ∀ more : List Action, (run P (Globals.init p) as).IsConnected = true →
        (run P (Globals.init p) (as ++ more)).IsConnected = true := by
  constructor
  · have h := run_readinessMatches P as (Globals.init p) (by simp [readinessMatches, Globals.init])
    unfold readinessMatches at h
    rw [h, List.any_eq_true]
  · intro more h
    have : run P (Globals.init p) (as ++ more) = run P (run P (Globals.init p) as) more := by
      simp [run]
    rw [this]
    exact run_IsConnected P more _ h

/-- C8, at the scripted session: the flag is false after the open call and a
timed-out poll, true after the Connection event, and still true after a failed
poll, a Tracking event and another open call. -/
theorem readiness_one_way_witness :
    (run scripted (Globals.init scriptSession)
        [Action.OpenConnection, Action.poll]).IsConnected = false ∧
      (run scripted (Globals.init scriptSession)
        [Action.OpenConnection, Action.poll, Action.poll]).IsConnected = true ∧
      (run scripted (Globals.init scriptSession)
        ([Action.OpenConnection, Action.poll, Action.poll] ++
          [Action.poll, Action.poll, Action.OpenConnection])).IsConnected = true :=
  ⟨by decide, by decide,
   (readiness_one_way scripted scriptSession
      [Action.OpenConnection, Action.poll, Action.poll]).2
      [Action.poll, Action.poll, Action.OpenConnection] (by decide)⟩

/-- C10 (footprint of one poll-loop iteration).  One run of the loop body leaves
`leapHandle`, `_isRunning` and the thread count as they were.  On a Tracking
event it sets the frame slot to the event's frame and leaves the device slot and
`IsConnected` unchanged; on a Device event it leaves the frame slot and
`IsConnected` unchanged; on a Connection event it sets `IsConnected` and leaves
both slots unchanged; when the poll does not return `eLeapRS_Success` (timeout
included) or the message has any other type, both slots and `IsConnected` are
unchanged.  In every case, when the loop was running it is still running, so the
loop goes on to its next iteration. -/
theorem poll_iteration_footprint {σ : Type} (P : Provider σ) (g : Globals σ) :
    ((pollOnce P g).leapHandle = g.leapHandle ∧
        (pollOnce P g)._isRunning = g._isRunning ∧
        (pollOnce P g).pollingThreads = g.pollingThreads) ∧
      (∀ f, (P.LeapPollConnection g.leapHandle 1000 g.provider).1 = eLeapRS.Success →
        (P.LeapPollConnection g.leapHandle 1000 g.provider).2.1
          = LEAP_CONNECTION_MESSAGE.Tracking f →
        (pollOnce P g).lastFrame = some f ∧
        (pollOnce P g).lastDevice = g.lastDevice ∧
        (pollOnce P g).IsConnected = g.IsConnected) ∧
      (∀ e, (P.LeapPollConnection g.leapHandle 1000 g.provider).1 = eLeapRS.Success →
        (P.LeapPollConnection g.leapHandle 1000 g.provider).2.1
          = LEAP_CONNECTION_MESSAGE.Device e →
        (pollOnce P g).lastFrame = g.lastFrame ∧
        (pollOnce P g).IsConnected = g.IsConnected) ∧
      ((P.LeapPollConnection g.leapHandle 1000 g.provider).1 = eLeapRS.Success →
        (P.LeapPollConnection g.leapHandle 1000 g.provider).2.1
          = LEAP_CONNECTION_MESSAGE.Connection →
        (pollOnce P g).lastFrame = g.lastFrame ∧
        (pollOnce P g).lastDevice = g.lastDevice ∧
        (pollOnce P g).IsConnected = true) ∧
      (((P.LeapPollConnection g.leapHandle 1000 g.provider).1 ≠ eLeapRS.Success ∨
          ∃ t, (P.LeapPollConnection g.leapHandle 1000 g.provider).2.1
            = LEAP_CONNECTION_MESSAGE.Other t) →
        (pollOnce P g).lastFrame = g.lastFrame ∧
        (pollOnce P g).lastDevice = g.lastDevice ∧
        (pollOnce P g).IsConnected = g.IsConnected) ∧
      (g._isRunning = true →
        (pollOnce P g)._isRunning = true ∧
        ∀ fuel, serviceMessageLoop P (fuel + 1) g
          = serviceMessageLoop P fuel (pollOnce P g)) := by
  refine ⟨pollOnce_frame P g, ?_, ?_, ?_, ?_, ?_⟩
  · intro f hs hm
    simp [pollOnce, hs, hm, setFrame_eq]
  · intro e hs hm
    have h := handleDeviceEvent_frame P e
      { g with provider := (P.LeapPollConnection g.leapHandle 1000 g.provider).2.2,
               calls := g.calls ++ [Call.pollConnection g.leapHandle 1000
                 (P.LeapPollConnection g.leapHandle 1000 g.provider).1
                 (P.LeapPollConnection g.leapHandle 1000 g.provider).2.1] }
    simp only [pollOnce, hs, hm, ne_eq, not_true_eq_false, if_false]
    simp only [hs, hm] at h
    exact ⟨h.2.2.2.1, h.2.2.1⟩
  · intro hs hm
    simp [pollOnce, hs, hm]
  · intro h
    rcases h with hs | ⟨t, hm⟩
    · simp [pollOnce, hs]
    · by_cases hs : (P.LeapPollConnection g.leapHandle 1000 g.provider).1 = eLeapRS.Success
      · simp [pollOnce, hs, hm]
      · simp [pollOnce, hs]
  · intro hr
    refine ⟨by rw [(pollOnce_frame P g).2.1]; exact hr, ?_⟩
    intro fuel
    simp [serviceMessageLoop, hr]

/-- C10, at the scripted session after the open call: the first poll times out
and changes neither slot nor the flag, and the loop is still running. -/
theorem poll_iteration_footprint_witness :
    (pollOnce scripted (OpenConnection scripted (Globals.init scriptSession)).2).lastFrame = none ∧
      (pollOnce scripted (OpenConnection scripted (Globals.init scriptSession)).2).lastDevice
        = none ∧
      (pollOnce scripted (OpenConnection scripted (Globals.init scriptSession)).2).IsConnected
        = false ∧
      (pollOnce scripted (OpenConnection scripted (Globals.init scriptSession)).2)._isRunning
        = true :=
  have h := poll_iteration_footprint scripted
    (OpenConnection scripted (Globals.init scriptSession)).2
  have h5 := h.2.2.2.2.1 (Or.inl (by decide))
  ⟨h5.1, h5.2.1, h5.2.2, (h.2.2.2.2.2 rfl).1⟩

/-! ## Two threads on the frame slot: theorems -/

theorem framesWritten_append (xs ys : List Event) :
    framesWritten (xs ++ ys) = framesWritten xs ++ framesWritten ys := by
  induction xs with
  | nil => rfl
  | cons x xs ih => cases x <;> simp [framesWritten, ih]

theorem runEvents_concat {σ : Type} (p : σ) (evs : List Event) (e : Event) :
    runEvents p (evs ++ [e]) = stepEvent (runEvents p evs) e := by
  simp [runEvents]

theorem runEvents_lastFrame {σ : Type} (p : σ) (evs : List Event) :
    (runEvents p evs).1.lastFrame = (framesWritten evs).getLast? := by
  induction evs using List.reverseRecOn with
  | nil => rfl
  | append_singleton evs e ih =>
    rw [runEvents_concat, framesWritten_append]
    cases e with
    | setFrame frame =>
      simp [stepEvent, setFrame_eq, framesWritten]
    | GetFrame =>
      simpa [stepEvent, framesWritten] using ih
    | load m =>
      have : (stepEvent (runEvents p evs) (Event.load m)).1 = (runEvents p evs).1 := by
        simp only [stepEvent]
        split <;> rfl
      rw [this]
      simpa [framesWritten] using ih

theorem loads_after_GetFrame {σ : Type} (g : Globals σ) (b : Bool) (ms : List Member) :
    ∀ acc : List (Member × Int),
      (ms.map Event.load).foldl stepEvent (g, { frame := b, loaded := acc }) =
        (g, { frame := b,
              loaded := acc ++
                match b, g.lastFrame with
                | true, some f => ms.map (fun m => (m, f.load m))
                | _, _ => [] }) := by
  induction ms with
  | nil =>
    intro acc
    cases b <;> cases g.lastFrame <;> simp
  | cons m ms ih =>
    intro acc
    rw [List.map_cons, List.foldl_cons]
    cases b with
    | false => simpa [stepEvent] using ih acc
    | true =>
      cases hf : g.lastFrame with
      | none =>
        have := ih acc
        simp only [hf] at this
        simpa [stepEvent, hf] using this
      | some f =>
        have := ih (acc ++ [(m, f.load m)])
        simp only [hf] at this
        simpa [stepEvent, hf] using this

/-- C9, counterexample.  The poll thread writes frame 5 (one hand), the consumer
calls `GetFrame` and loads `tracking_frame_id`, the poll thread writes frame 6
(two hands), the consumer loads `nHands`: it has seen identifier 5 with two
hands, which is no frame that was written. -/
theorem torn_read_counterexample :
    (runEvents Script.empty tornRead).2.loaded =
        [(Member.tracking_frame_id, 5), (Member.nHands, 2)] ∧
      ¬ ∃ f ∈ framesWritten tornRead,
          ∀ v ∈ (runEvents Script.empty tornRead).2.loaded, f.load v.1 = v.2 := by
  decide

/-- C9, amended.  In an interleaving where no `setFrame` runs between the
consumer's `GetFrame` and its loads through the returned pointer, the consumer
loads nothing when no frame had been written before `GetFrame`, and otherwise
every value it loads is the member of one and the same frame, the last one
written by a completed `setFrame` before `GetFrame`. -/
theorem read_is_last_write_when_no_write_intervenes {σ : Type} (p : σ)
    (before : List Event) (ms : List Member) :
    (framesWritten before = [] →
        (runEvents p (before ++ Event.GetFrame :: ms.map Event.load)).2.loaded = []) ∧
      ∀ f, (framesWritten before).getLast? = some f →
        f ∈ framesWritten before ∧
        (runEvents p (before ++ Event.GetFrame :: ms.map Event.load)).2.loaded
          = ms.map (fun m => (m, f.load m)) := by
  have hrun : runEvents p (before ++ Event.GetFrame :: ms.map Event.load) =
      (ms.map Event.load).foldl stepEvent
        ((runEvents p before).1,
          { frame := ((runEvents p before).1.lastFrame).isSome, loaded := [] }) := by
    simp [runEvents, stepEvent, GetFrame]
  rw [hrun, loads_after_GetFrame, runEvents_lastFrame]
  constructor
  · intro h
    simp [h]
  · intro f hf
    refine ⟨List.mem_of_getLast?_eq_some hf, ?_⟩
    simp [hf]

/-- C9 amended, at a concrete interleaving: frames 5 and 7 are written, then the
consumer calls `GetFrame` and loads two members; both are members of frame 7. -/
theorem read_is_last_write_witness :
    (runEvents Script.empty
        ([Event.setFrame frame5, Event.setFrame frame7] ++ Event.GetFrame ::
          [Member.tracking_frame_id, Member.nHands].map Event.load)).2.loaded
      = [(Member.tracking_frame_id, 7), (Member.nHands, 0)] :=
  ((read_is_last_write_when_no_write_intervenes Script.empty
      [Event.setFrame frame5, Event.setFrame frame7]
      [Member.tracking_frame_id, Member.nHands]).2 frame7 rfl).2

end UltraleapTerminal
